import Mathlib

/-!
Shallow embedding of the validation core of the Validador Flask REST API
repository (`backend/app/tools/ensamblaje_tool` and
`backend/app/tools/common_checks`), together with theorems settling the
specification claims about it.

Modelling conventions:
* pandas cells are `Cell`: `null` models `NaN`/`None`; Python floats are
  modelled as exact rationals (binary rounding of decimal literals is out of
  model, as are `inf`/`nan` literals).
* A DataFrame is an ordered column-name list plus a list of rows, each row an
  ordered association list from column name to cell (the shape produced by
  `row.to_dict()`).
* Python `round(x, 1)` is modelled as round-half-to-even on exact rationals.
* Dictionaries keep insertion order, as in Python 3.7+.
-/

namespace Validador

/-- A cell of the tabular dataset, i.e. a pandas scalar value.  `null` models
`NaN`/`None`.  Python floats are modelled as exact rationals. -/
inductive Cell where
  | null : Cell
  | str (s : String) : Cell
  | int (n : Int) : Cell
  | float (q : Rat) : Cell
deriving DecidableEq

/-- Floor of a rational as an integer, written with structural integer
division so that the kernel can evaluate it. -/
def ratFloor (q : Rat) : Int := Int.fdiv q.num q.den

/-- `10 ^ n` as a rational, written recursively so that the kernel can
evaluate it. -/
def pow10 : Nat → Rat
  | 0 => 1
  | n + 1 => 10 * pow10 n

/-- Decimal expansion of the fractional part `0 ≤ q < 1`, with fuel.  Within
the model every float is a finite decimal, so the fuel (chosen larger than the
longest decimal expansion of an IEEE double) is never exhausted on values that
arise from parsing. -/
def fracDigits : Nat → Rat → List Char
  | 0, _ => []
  | fuel + 1, q =>
      if q = 0 then []
      else
        let d : Int := ratFloor (q * 10)
        Char.ofNat (48 + d.toNat) :: fracDigits fuel (q * 10 - (d : Rat))

/-- Model of Python `str`/`repr` on a float: sign, integer part, and decimal
expansion of the fractional part; an integral float is rendered with a
trailing `.0` (`str(4.0) = "4.0"`). -/
def floatRepr (q : Rat) : String :=
  let a := if q < 0 then -q else q
  let ip : Int := ratFloor a
  let fr := a - (ip : Rat)
  let tail := if fr = 0 then ".0" else "." ++ String.mk (fracDigits 1200 fr)
  (if q < 0 then "-" else "") ++ toString ip ++ tail

/-- Model of Python `str()` on a cell value. -/
def pyStr : Cell → String
  | Cell.null => "nan"
  | Cell.str s => s
  | Cell.int n => toString n
  | Cell.float q => floatRepr q

/-- Numeric value of a run of decimal digit characters. -/
def digitsVal (cs : List Char) : Nat :=
  cs.foldl (fun a c => a * 10 + (c.toNat - 48)) 0

/-- Model of the Python builtin `float()` on a string: optional sign, integer
digits, optional fractional part, optional exponent, returning the exact
rational value.  This models the decimal fragment of the builtin; leading or
trailing whitespace, digit-group underscores and the `inf`/`nan` literals are
out of model (they never occur in the data this development evaluates on). -/
def pyFloat (s : String) : Option Rat :=
  let cs := s.data
  let sign : Int := match cs with
    | '-' :: _ => -1
    | _ => 1
  let cs := match cs with
    | '-' :: rest => rest
    | '+' :: rest => rest
    | _ => cs
  let intDs := cs.takeWhile Char.isDigit
  let cs := cs.drop intDs.length
  let hasDot := match cs with
    | '.' :: _ => true
    | _ => false
  let cs := if hasDot then cs.drop 1 else cs
  let fracDs := if hasDot then cs.takeWhile Char.isDigit else []
  let cs := cs.drop fracDs.length
  if intDs.isEmpty && fracDs.isEmpty then none
  else
    let mantissa : Rat :=
      (digitsVal intDs : Rat) + (digitsVal fracDs : Rat) / pow10 fracDs.length
    match cs with
    | [] => some ((sign : Rat) * mantissa)
    | 'e' :: rest => pyFloatExp sign mantissa rest
    | 'E' :: rest => pyFloatExp sign mantissa rest
    | _ => none
where
  /-- Exponent part of the float literal: optional sign, at least one digit. -/
  pyFloatExp (sign : Int) (mantissa : Rat) (rest : List Char) : Option Rat :=
    let eneg : Bool := match rest with
      | '-' :: _ => true
      | _ => false
    let rest := match rest with
      | '-' :: r => r
      | '+' :: r => r
      | _ => rest
    let expDs := rest.takeWhile Char.isDigit
    if expDs.isEmpty || !(rest.drop expDs.length).isEmpty then none
    else
      let scale := pow10 (digitsVal expDs)
      some ((sign : Rat) * (if eneg then mantissa / scale else mantissa * scale))

/-- Round-half-to-even to the nearest integer, modelling Python `round`. -/
def roundHalfEven (q : Rat) : Int :=
  let f : Int := ratFloor q
  let r := q - (f : Rat)
  if r < 1 / 2 then f
  else if 1 / 2 < r then f + 1
  else if f % 2 = 0 then f else f + 1

/-- Model of Python `round(x, 1)`: round to one decimal, ties to even. -/
def round1 (q : Rat) : Rat := (roundHalfEven (q * 10) : Rat) / 10

/-- A dataset row in the shape produced by pandas `row.to_dict()`: an ordered
association list from column name to cell. -/
abbrev Row : Type := List (String × Cell)

/-- Cell lookup `row[var]`.  In the source every lookup is guarded by
`var in data.columns`; lookup of an absent column is modelled as `null`. -/
def getCell (row : Row) (var : String) : Cell :=
  match row.find? (fun p => p.1 == var) with
  | some p => p.2
  | none => Cell.null

/-- Model of a pandas DataFrame: the ordered column names and the rows.  Rows
are addressed positionally (after `pd.DataFrame(list_of_dicts)` the index is
the range `0, 1, …`). -/
structure PyDataFrame where
  cols : List String
  rows : List Row
deriving DecidableEq

/-- Model of `pd.DataFrame(rows)` on a list of row dicts: column names are
inferred from the dict keys (each row dict carries the source frame's columns
in order), and the index is reset to `0, 1, …`. -/
def dfOfRows (rows : List Row) : PyDataFrame :=
  { cols := (rows.headD []).map Prod.fst, rows := rows }

/-- The column `df[var]` as a list of cells. -/
def colValues (df : PyDataFrame) (var : String) : List Cell :=
  df.rows.map (fun r => getCell r var)

/-- `ItemCountConstraint` from `core/models.py`. -/
structure ItemCountConstraint where
  expected_count : Int
  scope : String
deriving DecidableEq

/-- `KeyVariableConstraint` from `core/models.py`. -/
structure KeyVariableConstraint where
  variable_name : String
  expected_key_count : Int
  expected_values : List String
  scope : String
deriving DecidableEq

/-- `AdvancedValidationOptions` from `core/models.py`. -/
structure AdvancedValidationOptions where
  item_count_constraints : List ItemCountConstraint
  key_variable_constraints : List KeyVariableConstraint
deriving DecidableEq

/-- `VariableCategorization` from `core/models.py`.  `advanced_options = none`
models the Python `None` default (a present dataclass instance is always
truthy, so `if not categorization.advanced_options` tests exactly for
`None`). -/
structure VariableCategorization where
  instrument_vars : List String
  item_id_vars : List String
  metadata_vars : List String
  classification_vars : List String
  other_vars : List String
  advanced_options : Option AdvancedValidationOptions
deriving DecidableEq

/-- `SINGLE_INSTRUMENT_KEY` from `ensamblaje_tool/constants.py` (the same
literal is repeated in `check_duplicates.py`, `check_metadata.py` and
`check_advanced_constraints.py`). -/
def SINGLE_INSTRUMENT_KEY : String := "default_instrument"

/-- Python dict assignment `d[k] = v` on an insertion-ordered dict:
overwrite in place if the key exists, else append. -/
def dictInsert (d : List (String × String)) (k v : String) : List (String × String) :=
  if d.any (fun p => p.1 == k) then
    d.map (fun p => if p.1 == k then (k, v) else p)
  else d ++ [(k, v)]

/-- The per-row `instrument_values` dict of `_get_instruments`: iterate the
declared instrument variables and record `var ↦ str(row[var])` for each one
that is a dataset column. -/
def buildInstrumentValues (data : PyDataFrame) (ivars : List String) (row : Row) :
    List (String × String) :=
  ivars.foldl
    (fun d var =>
      if var ∈ data.cols then dictInsert d var (pyStr (getCell row var)) else d)
    []

/-- Python tuple comparison on `(name, value)` string pairs: first component,
then second. -/
def pairLE (a b : String × String) : Bool :=
  decide (a.1 < b.1) || (a.1 == b.1 && decide (a.2 ≤ b.2))

/-- `sorted(instrument_values.items())`: Python sorts the pairs
lexicographically, variable name first, then value. -/
def sortedItems (d : List (String × String)) : List (String × String) :=
  d.mergeSort pairLE

/-- The composite group key `"|".join(f"{k}:{v}" for k, v in sorted(...))`. -/
def instrumentKey (d : List (String × String)) : String :=
  String.intercalate ("|") ((sortedItems d).map (fun p => p.1 ++ ":" ++ p.2))

/-- The key under which `_get_instruments` files a row. -/
def rowKey (data : PyDataFrame) (ivars : List String) (row : Row) : String :=
  instrumentKey (buildInstrumentValues data ivars row)

/-- One step of the dict-of-lists accumulation in `_get_instruments`: append
the row to its key's bucket, creating the bucket at the end on first sight. -/
def addToGroups (gs : List (String × List Row)) (k : String) (r : Row) :
    List (String × List Row) :=
  if gs.any (fun g => g.1 == k) then
    gs.map (fun g => if g.1 == k then (g.1, g.2 ++ [r]) else g)
  else gs ++ [(k, [r])]

/-- The row-grouping loop of `_get_instruments`. -/
def instrumentGroups (data : PyDataFrame) (ivars : List String) :
    List (String × List Row) :=
  data.rows.foldl (fun gs row => addToGroups gs (rowKey data ivars row) row) []

/-- `_get_instruments(data, categorization)`.  The identical function appears
in `validator.py`, `check_duplicates.py`, `check_advanced_constraints.py` and
(as `_get_instruments_from_data`) in `check_metadata.py`; this definition
embeds all four copies.  With no instrument variables the whole frame is one
group under the sentinel key; otherwise each bucket is rebuilt as a fresh
frame via `pd.DataFrame(rows)`. -/
def getInstruments (data : PyDataFrame) (cat : VariableCategorization) :
    List (String × PyDataFrame) :=
  if cat.instrument_vars.isEmpty then [(SINGLE_INSTRUMENT_KEY, data)]
  else (instrumentGroups data cat.instrument_vars).map (fun g => (g.1, dfOfRows g.2))

/-- `ValidationError` from `core/models.py`; the free-form context dict is
modelled as a list of string pairs. -/
structure VError where
  message : String
  error_code : String
  severity : String
  context : List (String × String)
deriving DecidableEq

/-- `ValidationWarning` from `core/models.py`. -/
structure VWarning where
  message : String
  warning_code : String
  context : List (String × String)
deriving DecidableEq

/-- `Series.dropna()`: the non-null cells, in order. -/
def dropna (cells : List Cell) : List Cell :=
  cells.filter (fun c => !(c == Cell.null))

/-- Distinct values in order of first appearance (pandas `Series.unique`).
Cell equality is structural: the model assumes dtype-homogeneous columns, as
pandas ingestion produces. -/
def uniqueFA (l : List Cell) : List Cell :=
  l.foldl (fun acc v => if v ∈ acc then acc else acc ++ [v]) []

/-- pandas `value_counts()` on a list of non-null cells: each distinct value
with its multiplicity, ordered by descending count (stable). -/
def value_counts (l : List Cell) : List (Cell × Nat) :=
  ((uniqueFA l).map (fun v => (v, l.count v))).mergeSort (fun a b => decide (b.2 ≤ a.2))

/-- One entry of `repeated_details` in `_analyze_id_variable_by_instrument`:
the stringified value, its occurrence count, and `count - 1`. -/
structure RepeatedDetail where
  value : String
  count : Nat
  times_repeated : Nat
deriving DecidableEq

/-- The dict returned by `_analyze_id_variable_by_instrument` in
`common_checks/check_duplicates.py`. -/
structure IdVarAnalysis where
  total_observations : Nat
  unique_values_count : Nat
  duplicated_values_count : Nat
  total_duplicated_items : Nat
  missing_count : Nat
  missing_percentage : Rat
  repeated_details : List RepeatedDetail
deriving DecidableEq

/-- `_analyze_id_variable_by_instrument(data, variable)`; the `variable`
parameter is named `varName` because `variable` is a Lean keyword. -/
def analyze_id_variable_by_instrument (data : PyDataFrame) (varName : String) :
    IdVarAnalysis :=
  let col := colValues data varName
  let non_null := dropna col
  let vc := value_counts non_null
  let missing := col.countP (fun c => c == Cell.null)
  let total := data.rows.length
  { total_observations := total
    unique_values_count := (vc.filter (fun p => p.2 == 1)).length
    duplicated_values_count := (vc.filter (fun p => decide (1 < p.2))).length
    total_duplicated_items := ((vc.filter (fun p => decide (1 < p.2))).map Prod.snd).sum
    missing_count := missing
    missing_percentage :=
      if 0 < total then round1 ((missing : Rat) / (total : Rat) * 100) else 0
    repeated_details :=
      (vc.filter (fun p => decide (1 < p.2))).map
        (fun p => { value := pyStr p.1, count := p.2, times_repeated := p.2 - 1 }) }

/-- Per-variable analyses of one instrument group, one entry of
`instruments_analysis`. -/
structure InstrumentDupAnalysis where
  total_observations : Nat
  variables_analysis : List (String × IdVarAnalysis)
deriving DecidableEq

/-- The `statistics` dict stored by `validate_duplicates`; `none` models the
empty dict it starts from. -/
structure DupStatistics where
  instruments_analysis : List (String × InstrumentDupAnalysis)
  total_duplicated_items : Nat
  total_missing_values : Nat
  total_observations_analyzed : Nat
deriving DecidableEq

/-- `DuplicateItem` from `core/models.py`. -/
structure DuplicateItem where
  item_id : String
  instrument_combination : List (String × String)
  row_indices : List Nat
deriving DecidableEq

/-- The `validation_parameters` dict set by `validate_duplicates`. -/
structure DupValidationParameters where
  item_id_variables : List String
  instrument_variables : List String
  validation_method : String
  total_items_analyzed : Nat
deriving DecidableEq

/-- `DuplicateValidationResult` from `core/models.py`, restricted to the
fields `validate_duplicates` writes. -/
structure DuplicateValidationResult where
  is_valid : Bool
  errors : List VError
  warnings : List VWarning
  statistics : Option DupStatistics
  validation_parameters : DupValidationParameters
  duplicate_items : List DuplicateItem
  instruments_analyzed : Nat
  total_items_checked : Nat
deriving DecidableEq

/-- The `ID_VAR_NOT_FOUND` error built by `validate_duplicates` (severity
`error`, so adding it marks the result invalid). -/
def errVarNotFound (var instrument_key : String) : VError :=
  { message := "Variable de ID \x27" ++ var ++ "\x27 no encontrada en el instrumento "
      ++ instrument_key
    error_code := "ID_VAR_NOT_FOUND"
    severity := "error"
    context := [("variable", var), ("instrument", instrument_key)] }

/-- The inner per-variable loop of `validate_duplicates` over one instrument
group: errors for absent ID variables, analyses for present ones, and the
running duplicate/missing totals. -/
def dupAnalyzeInstrument (item_id_vars : List String) (instrument_key : String)
    (df : PyDataFrame) :
    List VError × InstrumentDupAnalysis × Nat × Nat :=
  let r := item_id_vars.foldl
    (fun (acc : List VError × List (String × IdVarAnalysis) × Nat × Nat) var =>
      if var ∈ df.cols then
        let a := analyze_id_variable_by_instrument df var
        (acc.1, acc.2.1 ++ [(var, a)], acc.2.2.1 + a.total_duplicated_items,
          acc.2.2.2 + a.missing_count)
      else
        (acc.1 ++ [errVarNotFound var instrument_key], acc.2.1, acc.2.2.1, acc.2.2.2))
    ([], [], 0, 0)
  (r.1, { total_observations := df.rows.length, variables_analysis := r.2.1 },
    r.2.2.1, r.2.2.2)

/-- `validate_duplicates(data, categorization)` from
`common_checks/check_duplicates.py`.  With no declared item-id variables it
records a single warning and returns before any per-row work; otherwise it
groups by instrument, analyzes every declared ID variable in every group, and
is invalid iff an ID variable was absent somewhere (severity-`error` issue) or
any duplicate or missing value was counted.  The model is pure, so the
defensive `except` branch is dead code here. -/
def validate_duplicates (data : PyDataFrame) (cat : VariableCategorization) :
    DuplicateValidationResult :=
  let params : DupValidationParameters :=
    { item_id_variables := cat.item_id_vars
      instrument_variables := cat.instrument_vars
      validation_method :=
        "Análisis por instrumento con identificadores únicos, repetidos y faltantes"
      total_items_analyzed := data.rows.length }
  if cat.item_id_vars.isEmpty then
    { is_valid := true
      errors := []
      warnings := [{ message := "No se han definido variables de identificador de ítem"
                     warning_code := "NO_ITEM_ID_VARS"
                     context := [] }]
      statistics := none
      validation_parameters := params
      duplicate_items := []
      instruments_analyzed := 0
      total_items_checked := 0 }
  else
    let instruments := getInstruments data cat
    let res := instruments.foldl
      (fun (acc : List VError × List (String × InstrumentDupAnalysis) × Nat × Nat) g =>
        let r := dupAnalyzeInstrument cat.item_id_vars g.1 g.2
        (acc.1 ++ r.1, acc.2.1 ++ [(g.1, r.2.1)], acc.2.2.1 + r.2.2.1,
          acc.2.2.2 + r.2.2.2))
      ([], [], 0, 0)
    let overall_duplicates := res.2.2.1
    let overall_missing := res.2.2.2
    { is_valid := res.1.isEmpty && !(decide (0 < overall_duplicates) || decide (0 < overall_missing))
      errors := res.1
      warnings := []
      statistics := some
        { instruments_analysis := res.2.1
          total_duplicated_items := overall_duplicates
          total_missing_values := overall_missing
          total_observations_analyzed := data.rows.length }
      validation_parameters := params
      duplicate_items := []
      instruments_analyzed := instruments.length
      total_items_checked := data.rows.length }

/-- `instrument_data[instrument_data[item_var] == item_id].index.tolist()`:
the positions (in the frame's own reset index `0, 1, …`) of the rows whose
cell equals the value. -/
def maskIndices (df : PyDataFrame) (var : String) (v : Cell) : List Nat :=
  (df.rows.enum.filter (fun p => getCell p.2 var == v)).map Prod.fst

/-- `_find_duplicates_in_instrument` from `check_duplicates.py`: the legacy
duplicate-item finder kept in the file.  It reports, for each duplicated
non-null value of each declared ID variable, the matching index positions of
the instrument frame it is handed — after `pd.DataFrame(rows)` these are the
reset positions `0, 1, …` within the group. -/
def find_duplicates_in_instrument (instrument_data : PyDataFrame)
    (instrument_combination : List (String × String)) (cat : VariableCategorization) :
    List DuplicateItem :=
  cat.item_id_vars.foldl
    (fun acc item_var =>
      if item_var ∈ instrument_data.cols then
        let non_null := dropna (colValues instrument_data item_var)
        let duplicated := (value_counts non_null).filter (fun p => decide (1 < p.2))
        acc ++ duplicated.map
          (fun p =>
            { item_id := pyStr p.1
              instrument_combination := instrument_combination
              row_indices := maskIndices instrument_data item_var p.1 })
      else acc)
    []

/-- `smart_sort_values(values_list)` from `check_metadata.py`: split the
values into those Python `float()` accepts (tagged with the parsed value) and
the rest; sort the numeric bucket by parsed value (stable) and the string
bucket lexicographically; numbers come first. -/
def smart_sort_values (values_list : List String) : List String :=
  if values_list.isEmpty then values_list
  else
    let numeric_values := values_list.filterMap (fun v => (pyFloat v).map (fun q => (q, v)))
    let string_values := values_list.filter (fun v => (pyFloat v).isNone)
    (numeric_values.mergeSort (fun a b => decide (a.1 ≤ b.1))).map Prod.snd ++
      string_values.mergeSort (fun a b => decide (a ≤ b))

/-- One entry of the value `distribution` in
`_analyze_variable_by_instrument`. -/
structure DistEntry where
  value : String
  count : Nat
  percentage : Rat
deriving DecidableEq

/-- The dict returned by `_analyze_variable_by_instrument` in
`check_metadata.py`. -/
structure VarAnalysis where
  total_observations : Nat
  unique_values_count : Nat
  missing_count : Nat
  missing_percentage : Rat
  distribution : List DistEntry
deriving DecidableEq

/-- `value_counts.get(value, 0)` where `value` is a *stringified* value and
the dict keys are raw cells: the lookup hits only when the key is that exact
string (in Python `"4.0" == 4.0` is `False`). -/
def vcGetStr (vc : List (Cell × Nat)) (value : String) : Nat :=
  match vc.find? (fun p => p.1 == Cell.str value) with
  | some p => p.2
  | none => 0

/-- `_analyze_variable_by_instrument(data, variable)` from
`check_metadata.py`. -/
def analyze_variable_by_instrument (data : PyDataFrame) (varName : String) :
    VarAnalysis :=
  let col := colValues data varName
  let non_null := dropna col
  let vc := value_counts non_null
  let missing := col.countP (fun c => c == Cell.null)
  let total := data.rows.length
  let unique_values := smart_sort_values (vc.map (fun p => pyStr p.1))
  { total_observations := total
    unique_values_count := unique_values.length
    missing_count := missing
    missing_percentage :=
      if 0 < total then round1 ((missing : Rat) / (total : Rat) * 100) else 0
    distribution :=
      unique_values.map (fun value =>
        let count := vcGetStr vc value
        let percentage : Rat := if 0 < total then (count : Rat) / (total : Rat) * 100 else 0
        { value := value, count := count, percentage := round1 percentage }) }

/-- The `validation_parameters` dict set by `validate_metadata_completeness`. -/
structure MetaValidationParameters where
  metadata_variables : List String
  instrument_variables : List String
  validation_method : String
  total_items_analyzed : Nat
deriving DecidableEq

/-- Per-variable analyses of one instrument group in the metadata checker. -/
structure InstrumentMetaAnalysis where
  total_observations : Nat
  variables_analysis : List (String × VarAnalysis)
deriving DecidableEq

/-- The `statistics` dict stored by `validate_metadata_completeness`. -/
structure MetaStatistics where
  instruments_analysis : List (String × InstrumentMetaAnalysis)
  total_missing_values : Nat
  total_observations_analyzed : Nat
  missing_percentage_overall : Rat
deriving DecidableEq

/-- `MetadataValidationResult` from `core/models.py`, restricted to the
fields `validate_metadata_completeness` writes. -/
structure MetadataValidationResult where
  is_valid : Bool
  errors : List VError
  warnings : List VWarning
  statistics : Option MetaStatistics
  validation_parameters : MetaValidationParameters
deriving DecidableEq

/-- The `METADATA_VAR_NOT_FOUND` error (severity `error`). -/
def errMetaVarNotFound (var instrument_key : String) : VError :=
  { message := "Variable crítica \x27" ++ var ++ "\x27 no encontrada en el instrumento "
      ++ instrument_key
    error_code := "METADATA_VAR_NOT_FOUND"
    severity := "error"
    context := [("variable", var), ("instrument", instrument_key)] }

/-- The inner per-variable loop of `validate_metadata_completeness` over one
instrument group: errors for absent variables, analyses for present ones, and
the running missing/observation totals. -/
def metaAnalyzeInstrument (metadata_vars : List String) (instrument_key : String)
    (df : PyDataFrame) :
    List VError × InstrumentMetaAnalysis × Nat × Nat :=
  let r := metadata_vars.foldl
    (fun (acc : List VError × List (String × VarAnalysis) × Nat × Nat) var =>
      if var ∈ df.cols then
        let a := analyze_variable_by_instrument df var
        (acc.1, acc.2.1 ++ [(var, a)], acc.2.2.1 + a.missing_count,
          acc.2.2.2 + a.total_observations)
      else
        (acc.1 ++ [errMetaVarNotFound var instrument_key], acc.2.1, acc.2.2.1, acc.2.2.2))
    ([], [], 0, 0)
  (r.1, { total_observations := df.rows.length, variables_analysis := r.2.1 },
    r.2.2.1, r.2.2.2)

/-- `validate_metadata_completeness(data, categorization)` from
`check_metadata.py`.  With no declared metadata variables it records a single
warning (not an error) and returns; otherwise it analyzes every declared
variable per instrument group and is invalid iff a variable was absent
somewhere or any missing value was counted. -/
def validate_metadata_completeness (data : PyDataFrame) (cat : VariableCategorization) :
    MetadataValidationResult :=
  let params : MetaValidationParameters :=
    { metadata_variables := cat.metadata_vars
      instrument_variables := cat.instrument_vars
      validation_method := "Análisis por instrumento con distribución de valores"
      total_items_analyzed := data.rows.length }
  if cat.metadata_vars.isEmpty then
    { is_valid := true
      errors := []
      warnings := [{ message := "No se han definido variables de información crítica"
                     warning_code := "NO_METADATA_VARS"
                     context := [] }]
      statistics := none
      validation_parameters := params }
  else
    let instruments := getInstruments data cat
    let res := instruments.foldl
      (fun (acc : List VError × List (String × InstrumentMetaAnalysis) × Nat × Nat) g =>
        let r := metaAnalyzeInstrument cat.metadata_vars g.1 g.2
        (acc.1 ++ r.1, acc.2.1 ++ [(g.1, r.2.1)], acc.2.2.1 + r.2.2.1,
          acc.2.2.2 + r.2.2.2))
      ([], [], 0, 0)
    let overall_missing := res.2.2.1
    let overall_observations := res.2.2.2
    { is_valid := res.1.isEmpty && !(decide (0 < overall_missing))
      errors := res.1
      warnings := []
      statistics := some
        { instruments_analysis := res.2.1
          total_missing_values := overall_missing
          total_observations_analyzed := overall_observations
          missing_percentage_overall :=
            if 0 < overall_observations then
              round1 ((overall_missing : Rat) / (overall_observations : Rat) * 100)
            else 0 }
      validation_parameters := params }

/-- `_get_display_name(inst_key)` from `check_advanced_constraints.py`. -/
def get_display_name (inst_key : String) : String :=
  if inst_key == "default_instrument" then "Toda la base de datos"
  else String.replace (String.replace inst_key ("|") (" - ")) (":") (": ")

/-- Context dict of an item-count error. -/
structure ItemCountContext where
  instrument : String
  expected_count : Int
  actual_count : Int
  difference : Int
deriving DecidableEq

/-- One entry of `item_count_errors`. -/
structure ItemCountError where
  message : String
  context : ItemCountContext
deriving DecidableEq

/-- One entry of `item_count_passed`. -/
structure ItemCountPassed where
  instrument : String
  instrument_display : String
  expected_count : Int
  actual_count : Int
deriving DecidableEq

/-- The item-count message of `_validate_item_counts`. -/
def itemCountMessage (display : String) (expected : Int) (actual : Nat) : String :=
  "Instrumento \x27" ++ display ++ "\x27: se esperaban " ++ toString expected
    ++ " ítems, se encontraron " ++ toString actual

/-- Item-count check of one instrument group against one constraint (the
block `_validate_item_counts` repeats verbatim for the `global` and the
specific-scope paths). -/
def checkItemCount (inst_key : String) (df : PyDataFrame) (c : ItemCountConstraint) :
    List ItemCountError × List ItemCountPassed :=
  let actual := df.rows.length
  let display := get_display_name inst_key
  if (actual : Int) ≠ c.expected_count then
    ([{ message := itemCountMessage display c.expected_count actual
        context := { instrument := inst_key
                     expected_count := c.expected_count
                     actual_count := (actual : Int)
                     difference := (actual : Int) - c.expected_count } }], [])
  else
    ([], [{ instrument := inst_key
            instrument_display := display
            expected_count := c.expected_count
            actual_count := (actual : Int) }])

/-- `_validate_item_counts(instruments, constraints)`: `global` constraints
run against every group, scoped ones against the group whose key equals the
scope (silently skipped when absent). -/
def validate_item_counts (instruments : List (String × PyDataFrame))
    (constraints : List ItemCountConstraint) :
    List ItemCountError × List ItemCountPassed :=
  constraints.foldl
    (fun acc c =>
      if c.scope == "global" then
        instruments.foldl
          (fun acc2 g =>
            let r := checkItemCount g.1 g.2 c
            (acc2.1 ++ r.1, acc2.2 ++ r.2))
          acc
      else
        match instruments.find? (fun g => g.1 == c.scope) with
        | some g =>
            let r := checkItemCount g.1 g.2 c
            (acc.1 ++ r.1, acc.2 ++ r.2)
        | none => acc)
    ([], [])

/-- `normalize_value` inside `_check_key_in_instrument`: stringify, attempt a
float parse, and render an integral number as an integer string (so `"4"` and
`4.0` both normalize to `"4"`); anything that does not parse is kept
literally. -/
def normalize_value (val : Cell) : String :=
  let s := pyStr val
  match pyFloat s with
  | some num => if num.den == 1 then toString num.num else s
  | none => s

/-- Context dict of the consolidated key-variable check error. -/
structure KeyCheckContext where
  instrument : String
  variable_name : String
  expected_count : Option Int
  actual_count : Nat
  expected_values : Option (List String)
  actual_values : List String
  matched_values : Option (List String)
  unexpected_values : Option (List String)
  missing_values : Option (List String)
deriving DecidableEq

/-- Context of a key-variable error: either the variable-missing shape
(`{'variable': name}`) or the full consolidated-check shape. -/
inductive KeyVarContext where
  | varMissing (variable_name : String) : KeyVarContext
  | check (ctx : KeyCheckContext) : KeyVarContext
deriving DecidableEq

/-- One entry of `key_variable_errors`. -/
structure KeyVarError where
  message : String
  context : KeyVarContext
deriving DecidableEq

/-- One entry of `key_variable_passed`. -/
structure KeyCheckPassed where
  instrument : String
  instrument_display : String
  variable_name : String
  expected_count : Option Int
  actual_count : Nat
  expected_values : Option (List String)
  actual_values : List String
deriving DecidableEq

/-- Ascending sort of a finite set of strings, modelling both Python
`sorted(s)` and the (unspecified) iteration order of `list(s)`. -/
def sortSet (s : Finset String) : List String := s.sort (fun a b => a ≤ b)

/-- `_check_key_in_instrument(inst_data, inst_key, var_name, constraint)`:
distinct non-null values of the variable in the group, optional cardinality
check (enabled when `expected_key_count > 0`), optional allowed-value check
(enabled when `expected_values` is non-empty) on values normalized on both
sides by `normalize_value`, one consolidated error when anything fails, and a
passed entry when at least one sub-check ran and all ran ones passed. -/
def check_key_in_instrument (inst_data : PyDataFrame) (inst_key var_name : String)
    (constraint : KeyVariableConstraint) :
    List KeyVarError × Option KeyCheckPassed :=
  let display := get_display_name inst_key
  let unique_vals := uniqueFA (dropna (colValues inst_data var_name))
  let actual_count := unique_vals.length
  let expected_count := constraint.expected_key_count
  let should_check_cardinality := decide (0 < expected_count)
  let should_check_values := !constraint.expected_values.isEmpty
  let normalized_actual := unique_vals.map normalize_value
  let cardinality_ok :=
    if should_check_cardinality then (actual_count : Int) == expected_count else true
  let expected_set : Finset String :=
    if should_check_values then
      (constraint.expected_values.map (fun v => normalize_value (Cell.str v))).toFinset
    else ∅
  let actual_set : Finset String :=
    if should_check_values then normalized_actual.toFinset else ∅
  let unexpected := actual_set \ expected_set
  let missing := expected_set \ actual_set
  let matched := expected_set ∩ actual_set
  let values_ok :=
    if should_check_values then unexpected == ∅ && missing == ∅ else true
  let errors :=
    if !cardinality_ok || !values_ok then
      let parts :=
        (if !cardinality_ok then
          ["se esperaban " ++ toString expected_count ++ " valores únicos, se encontraron "
            ++ toString actual_count]
         else []) ++
        (if !values_ok then
          (if !(unexpected == ∅) then
            ["valores inesperados: " ++ String.intercalate (", ") (sortSet unexpected)]
           else []) ++
          (if !(missing == ∅) then
            ["valores faltantes: " ++ String.intercalate (", ") (sortSet missing)]
           else [])
         else [])
      [{ message := "Instrumento \x27" ++ display ++ "\x27, variable \x27" ++ var_name
           ++ "\x27: " ++ String.intercalate ("; ") parts
         context := KeyVarContext.check
           { instrument := inst_key
             variable_name := var_name
             expected_count := if should_check_cardinality then some expected_count else none
             actual_count := actual_count
             expected_values := if should_check_values then some (sortSet expected_set) else none
             actual_values := normalized_actual
             matched_values := if should_check_values then some (sortSet matched) else none
             unexpected_values := if should_check_values then some (sortSet unexpected) else none
             missing_values := if should_check_values then some (sortSet missing) else none } }]
    else []
  let passed :=
    if (should_check_cardinality || should_check_values) && cardinality_ok && values_ok then
      some { instrument := inst_key
             instrument_display := display
             variable_name := var_name
             expected_count := if should_check_cardinality then some expected_count else none
             actual_count := actual_count
             expected_values := if should_check_values then some constraint.expected_values else none
             actual_values := unique_vals.map pyStr }
    else none
  (errors, passed)

/-- `_validate_key_variables(data, instruments, constraints)`: a constraint
whose variable is missing from the dataset yields one standalone error;
otherwise the check runs per applicable group. -/
def validate_key_variables (data : PyDataFrame)
    (instruments : List (String × PyDataFrame))
    (constraints : List KeyVariableConstraint) :
    List KeyVarError × List KeyCheckPassed :=
  constraints.foldl
    (fun acc c =>
      if !(c.variable_name ∈ data.cols : Bool) then
        (acc.1 ++ [{ message := "Variable de clave \x27" ++ c.variable_name
                       ++ "\x27 no encontrada en datos"
                     context := KeyVarContext.varMissing c.variable_name }], acc.2)
      else if c.scope == "global" then
        instruments.foldl
          (fun acc2 g =>
            let r := check_key_in_instrument g.2 g.1 c.variable_name c
            (acc2.1 ++ r.1, acc2.2 ++ r.2.toList))
          acc
      else
        match instruments.find? (fun g => g.1 == c.scope) with
        | some g =>
            let r := check_key_in_instrument g.2 c.scope c.variable_name c
            (acc.1 ++ r.1, acc.2 ++ r.2.toList)
        | none => acc)
    ([], [])

/-- The `validation_parameters` dict of `validate_advanced_constraints`. -/
structure AdvValidationParameters where
  has_item_count_constraints : Bool
  has_key_variable_constraints : Bool
deriving DecidableEq

/-- The `statistics` dict of `validate_advanced_constraints`. -/
structure AdvStatistics where
  total_constraints_checked : Nat
  total_errors : Nat
  instruments_analyzed : Nat
deriving DecidableEq

/-- `AdvancedConstraintsValidationResult` from `core/models.py`, restricted
to the fields `validate_advanced_constraints` writes.  The generic `errors`
list receives one severity-`error` issue per family-specific error (their
heterogeneous kwargs contexts are carried in the structured entries, so the
generic copies hold an empty context here). -/
structure AdvancedConstraintsValidationResult where
  is_valid : Bool
  errors : List VError
  warnings : List VWarning
  item_count_errors : List ItemCountError
  item_count_passed : List ItemCountPassed
  key_variable_errors : List KeyVarError
  key_variable_passed : List KeyCheckPassed
  validation_parameters : Option AdvValidationParameters
  statistics : Option AdvStatistics
deriving DecidableEq

/-- `validate_advanced_constraints(data, categorization)` from
`check_advanced_constraints.py`.  The system is opt-in: with
`advanced_options = None` (a present dataclass instance is always truthy) the
function returns immediately with a vacuously valid, empty result. -/
def validate_advanced_constraints (data : PyDataFrame) (cat : VariableCategorization) :
    AdvancedConstraintsValidationResult :=
  match cat.advanced_options with
  | none =>
      { is_valid := true
        errors := []
        warnings := []
        item_count_errors := []
        item_count_passed := []
        key_variable_errors := []
        key_variable_passed := []
        validation_parameters := some
          { has_item_count_constraints := false, has_key_variable_constraints := false }
        statistics := none }
  | some advanced_opts =>
      let instruments := getInstruments data cat
      let ic :=
        if !advanced_opts.item_count_constraints.isEmpty then
          validate_item_counts instruments advanced_opts.item_count_constraints
        else ([], [])
      let kv :=
        if !advanced_opts.key_variable_constraints.isEmpty then
          validate_key_variables data instruments advanced_opts.key_variable_constraints
        else ([], [])
      { is_valid := ic.1.isEmpty && kv.1.isEmpty
        errors :=
          ic.1.map (fun e =>
            { message := e.message, error_code := "ITEM_COUNT_ERROR"
              severity := "error", context := [] }) ++
          kv.1.map (fun e =>
            { message := e.message, error_code := "KEY_VARIABLE_ERROR"
              severity := "error", context := [] })
        warnings := []
        item_count_errors := ic.1
        item_count_passed := ic.2
        key_variable_errors := kv.1
        key_variable_passed := kv.2
        validation_parameters := some
          { has_item_count_constraints := !advanced_opts.item_count_constraints.isEmpty
            has_key_variable_constraints := !advanced_opts.key_variable_constraints.isEmpty }
        statistics := some
          { total_constraints_checked :=
              advanced_opts.item_count_constraints.length
                + advanced_opts.key_variable_constraints.length
            total_errors := ic.1.length + kv.1.length
            instruments_analyzed := instruments.length } }

/-- The validity flag and warning list of one checker result — everything the
report aggregator reads from a sub-result when deriving the overall status. -/
structure SubResult where
  is_valid : Bool
  warnings : List VWarning
deriving DecidableEq

/-- The overall-status computation of
`EnsamblajeValidator.generate_comprehensive_report` in `validator.py`:
`has_errors` when any of the five checker results is invalid, `has_warnings`
when any recorded warnings, and the priority chain
`error` / `warning` / `success`. -/
def validation_status (instrument_validation duplicate_validation metadata_validation
    classification_validation advanced_validation : SubResult) : String :=
  let has_errors :=
    !instrument_validation.is_valid || !duplicate_validation.is_valid ||
    !metadata_validation.is_valid || !classification_validation.is_valid ||
    !advanced_validation.is_valid
  let has_warnings :=
    decide (0 < instrument_validation.warnings.length) ||
    decide (0 < duplicate_validation.warnings.length) ||
    decide (0 < metadata_validation.warnings.length) ||
    decide (0 < classification_validation.warnings.length) ||
    decide (0 < advanced_validation.warnings.length)
  if has_errors then "error" else if has_warnings then "warning" else "success"

/-- The sub-result view of a duplicate-checker result. -/
def DuplicateValidationResult.toSub (r : DuplicateValidationResult) : SubResult :=
  { is_valid := r.is_valid, warnings := r.warnings }

/-- The sub-result view of a metadata-checker result. -/
def MetadataValidationResult.toSub (r : MetadataValidationResult) : SubResult :=
  { is_valid := r.is_valid, warnings := r.warnings }

/-- The sub-result view of an advanced-constraints result. -/
def AdvancedConstraintsValidationResult.toSub (r : AdvancedConstraintsValidationResult) :
    SubResult :=
  { is_valid := r.is_valid, warnings := r.warnings }

/-- The summary fields computed by `generate_comprehensive_report`
(the timestamp and the static export options are out of this pure model). -/
structure ReportCore where
  validation_status : String
  total_items : Nat
  total_instruments : Nat
deriving DecidableEq

/-- `EnsamblajeValidator.generate_comprehensive_report(data, categorization)`
from `validator.py`, with the two checkers not embedded in this development
(`validate_instruments_identification` and
`analyze_classification_variables`) supplied as explicit sub-results: run the
embedded checkers, derive the overall status from all five, and build the
summary counts. -/
def generate_comprehensive_report (data : PyDataFrame) (cat : VariableCategorization)
    (instrument_validation classification_validation : SubResult) : ReportCore :=
  let duplicate_validation := (validate_duplicates data cat).toSub
  let metadata_validation := (validate_metadata_completeness data cat).toSub
  let advanced_validation := (validate_advanced_constraints data cat).toSub
  { validation_status :=
      validation_status instrument_validation duplicate_validation metadata_validation
        classification_validation advanced_validation
    total_items := data.rows.length
    total_instruments := (getInstruments data cat).length }

/-- Concrete two-column, two-row frame used by witnesses. -/
def sampleDFAB : PyDataFrame :=
  { cols := ["a", "b"]
    rows := [[("a", Cell.str "x"), ("b", Cell.int 1)],
             [("a", Cell.str "y"), ("b", Cell.int 1)]] }

/-- Categorization declaring instrument variables `["a", "b"]`. -/
def catAB : VariableCategorization := ⟨["a", "b"], [], [], [], [], none⟩

/-- Categorization declaring instrument variables `["b", "a"]`. -/
def catBA : VariableCategorization := ⟨["b", "a"], [], [], [], [], none⟩

/-- Categorization declaring the instrument variable `"z"`, absent from
`sampleDFAB`. -/
def catZ : VariableCategorization := ⟨["z"], [], [], [], [], none⟩

/-- Four-row frame with two instrument groups (`G = g1`: global rows 0-1,
`G = g2`: global rows 2-3); the item id `"A"` is duplicated inside the second
group, at global rows 2 and 3. -/
def dupDF : PyDataFrame :=
  { cols := ["G", "ID"]
    rows := [[("G", Cell.str "g1"), ("ID", Cell.str "B")],
             [("G", Cell.str "g1"), ("ID", Cell.str "C")],
             [("G", Cell.str "g2"), ("ID", Cell.str "A")],
             [("G", Cell.str "g2"), ("ID", Cell.str "A")]] }

/-- Categorization for `dupDF`: instrument variable `G`, item-id variable
`ID`. -/
def dupCat : VariableCategorization := ⟨["G"], ["ID"], [], [], [], none⟩

/-- The first instrument group of `dupDF` as rebuilt by the grouper. -/
def dupG1 : PyDataFrame :=
  dfOfRows [[("G", Cell.str "g1"), ("ID", Cell.str "B")],
            [("G", Cell.str "g1"), ("ID", Cell.str "C")]]

/-- The second instrument group of `dupDF` as rebuilt by the grouper (its
index is reset to `0, 1`). -/
def dupG2 : PyDataFrame :=
  dfOfRows [[("G", Cell.str "g2"), ("ID", Cell.str "A")],
            [("G", Cell.str "g2"), ("ID", Cell.str "A")]]

/-- Five-row, one-column frame with 3 of 5 values non-null. -/
def metaDF : PyDataFrame :=
  { cols := ["k"]
    rows := [[("k", Cell.str "A")], [("k", Cell.null)], [("k", Cell.str "B")],
             [("k", Cell.null)], [("k", Cell.str "A")]] }

/-- One-column frame whose cells are the float `4.0`, twice. -/
def keyDF : PyDataFrame :=
  { cols := ["K"], rows := [[("K", Cell.float 4)], [("K", Cell.float 4)]] }

/-- Key-variable constraint expecting one distinct value drawn from
`["4"]`. -/
def keyConstraint : KeyVariableConstraint := ⟨"K", 1, ["4"], "global"⟩

-- Sanity checks of the scalar models.
example : pyStr (Cell.float 4) = "4.0" := by with_unfolding_all decide
example : pyStr (Cell.float (5 / 2)) = "2.5" := by with_unfolding_all decide
example : pyStr (Cell.int (-3)) = "-3" := by with_unfolding_all decide
example : pyFloat "4" = some 4 := by with_unfolding_all decide
example : pyFloat "4.0" = some 4 := by with_unfolding_all decide
example : pyFloat "-2.5" = some (-(5 / 2)) := by with_unfolding_all decide
example : pyFloat "1e2" = some 100 := by with_unfolding_all decide
example : pyFloat "a" = none := by with_unfolding_all decide
example : pyFloat "" = none := by with_unfolding_all decide
example : round1 (2 / 5 * 100) = 40 := by with_unfolding_all decide

/-- The three-way characterization of the aggregator's status priority, over
arbitrary sub-results. -/
theorem validation_status_characterization (i d m c a : SubResult) :
    (validation_status i d m c a = "error" ↔
      (i.is_valid = false ∨ d.is_valid = false ∨ m.is_valid = false ∨
        c.is_valid = false ∨ a.is_valid = false)) ∧
    (validation_status i d m c a = "warning" ↔
      (i.is_valid = true ∧ d.is_valid = true ∧ m.is_valid = true ∧
        c.is_valid = true ∧ a.is_valid = true ∧
        (i.warnings ≠ [] ∨ d.warnings ≠ [] ∨ m.warnings ≠ [] ∨
          c.warnings ≠ [] ∨ a.warnings ≠ []))) ∧
    (validation_status i d m c a = "success" ↔
      (i.is_valid = true ∧ d.is_valid = true ∧ m.is_valid = true ∧
        c.is_valid = true ∧ a.is_valid = true ∧
        i.warnings = [] ∧ d.warnings = [] ∧ m.warnings = [] ∧
        c.warnings = [] ∧ a.warnings = [])) := by
  obtain ⟨ib, iw⟩ := i
  obtain ⟨db, dw⟩ := d
  obtain ⟨mb, mw⟩ := m
  obtain ⟨cb, cw⟩ := c
  obtain ⟨ab, aw⟩ := a
  simp only [validation_status]
  cases ib <;> cases db <;> cases mb <;> cases cb <;> cases ab <;>
    split_ifs with h1 h2 <;>
    simp_all [List.length_pos] <;>
    tauto

/-- **C1** For every dataset and categorization (and any outcome of the two
checkers external to this embedding), the report produced by the aggregator
has overall `validation_status` `error` iff one of the five checker results
is invalid; else `warning` iff some checker result carries at least one
warning; else `success`. -/
theorem report_status_priority (data : PyDataFrame) (cat : VariableCategorization)
    (iv cv : SubResult) :
    ((generate_comprehensive_report data cat iv cv).validation_status = "error" ↔
      (iv.is_valid = false ∨ (validate_duplicates data cat).is_valid = false ∨
        (validate_metadata_completeness data cat).is_valid = false ∨
        cv.is_valid = false ∨ (validate_advanced_constraints data cat).is_valid = false)) ∧
    ((generate_comprehensive_report data cat iv cv).validation_status = "warning" ↔
      (iv.is_valid = true ∧ (validate_duplicates data cat).is_valid = true ∧
        (validate_metadata_completeness data cat).is_valid = true ∧
        cv.is_valid = true ∧ (validate_advanced_constraints data cat).is_valid = true ∧
        (iv.warnings ≠ [] ∨ (validate_duplicates data cat).warnings ≠ [] ∨
          (validate_metadata_completeness data cat).warnings ≠ [] ∨
          cv.warnings ≠ [] ∨ (validate_advanced_constraints data cat).warnings ≠ []))) ∧
    ((generate_comprehensive_report data cat iv cv).validation_status = "success" ↔
      (iv.is_valid = true ∧ (validate_duplicates data cat).is_valid = true ∧
        (validate_metadata_completeness data cat).is_valid = true ∧
        cv.is_valid = true ∧ (validate_advanced_constraints data cat).is_valid = true ∧
        iv.warnings = [] ∧ (validate_duplicates data cat).warnings = [] ∧
        (validate_metadata_completeness data cat).warnings = [] ∧
        cv.warnings = [] ∧ (validate_advanced_constraints data cat).warnings = [])) := by
  have h := validation_status_characterization iv (validate_duplicates data cat).toSub
    (validate_metadata_completeness data cat).toSub cv
    (validate_advanced_constraints data cat).toSub
  simpa [generate_comprehensive_report, DuplicateValidationResult.toSub,
    MetadataValidationResult.toSub, AdvancedConstraintsValidationResult.toSub] using h

/-- Updating a bucket list does not change its keys; a new key is appended. -/
theorem addToGroups_map_fst (gs : List (String × List Row)) (k : String) (r : Row) :
    (addToGroups gs k r).map Prod.fst =
      if gs.any (fun g => g.1 == k) then gs.map Prod.fst else gs.map Prod.fst ++ [k] := by
  unfold addToGroups
  by_cases hc : gs.any (fun g => g.1 == k) = true
  · rw [if_pos hc, if_pos hc, List.map_map]
    apply List.map_congr_left
    intro g _
    by_cases hg : (g.1 == k) = true <;> simp [hg, Function.comp]
  · rw [if_neg hc, if_neg hc]
    simp

/-- `addToGroups` preserves key distinctness. -/
theorem addToGroups_keys_nodup (gs : List (String × List Row)) (k : String) (r : Row)
    (h : (gs.map Prod.fst).Nodup) : ((addToGroups gs k r).map Prod.fst).Nodup := by
  rw [addToGroups_map_fst]
  by_cases hc : gs.any (fun g => g.1 == k) = true
  · rwa [if_pos hc]
  · rw [if_neg hc]
    have hk : k ∉ gs.map Prod.fst := by
      intro hmem
      rcases List.mem_map.mp hmem with ⟨g, hg, hgk⟩
      exact hc (List.any_eq_true.mpr ⟨g, hg, by rw [hgk]; exact beq_self_eq_true k⟩)
    rw [List.nodup_append]
    refine ⟨h, List.nodup_singleton k, ?_⟩
    intro x hx hx'
    rw [List.mem_singleton.mp hx'] at hx
    exact hk hx

/-- When no bucket carries the key, the bucket-update map is the identity. -/
theorem update_no_key (gs : List (String × List Row)) (k : String) (r : Row)
    (h : ∀ g ∈ gs, (g.1 == k) = false) :
    gs.map (fun g => if g.1 == k then (g.1, g.2 ++ [r]) else g) = gs := by
  have h1 : gs.map (fun g => if g.1 == k then (g.1, g.2 ++ [r]) else g) = gs.map id :=
    List.map_congr_left (fun g hg => by simp [h g hg])
  rw [h1, List.map_id]

/-- Appending a row to the (unique) bucket of its key appends it to the
multiset of all bucketed rows. -/
theorem update_bucket_join_perm (k : String) (r : Row) :
    ∀ gs : List (String × List Row), (gs.map Prod.fst).Nodup →
      gs.any (fun g => g.1 == k) = true →
      ((gs.map (fun g => if g.1 == k then (g.1, g.2 ++ [r]) else g)).map Prod.snd).join.Perm
        ((gs.map Prod.snd).join ++ [r])
  | [], _, hc => by cases hc
  | g :: gs, hnd, hc => by
    rw [List.map_cons] at hnd
    by_cases hg : (g.1 == k) = true
    · have hk : g.1 = k := beq_iff_eq.mp hg
      have hhead : g.1 ∉ gs.map Prod.fst := (List.nodup_cons.mp hnd).1
      have htail : ∀ g' ∈ gs, (g'.1 == k) = false := by
        intro g' hg'
        apply beq_eq_false_iff_ne.mpr
        intro he
        exact hhead (by rw [hk, ← he]; exact List.mem_map_of_mem Prod.fst hg')
      simp only [List.map_cons, if_pos hg, update_no_key gs k r htail, List.join_cons]
      rw [List.append_assoc, List.append_assoc]
      exact List.Perm.append_left g.2 List.perm_append_comm
    · have hc' : gs.any (fun g => g.1 == k) = true := by
        rcases List.any_eq_true.mp hc with ⟨g', hg', hgk⟩
        rcases List.mem_cons.mp hg' with he | ht
        · rw [he] at hgk
          exact absurd hgk hg
        · exact List.any_eq_true.mpr ⟨g', ht, hgk⟩
      have hnd' := (List.nodup_cons.mp hnd).2
      have ih := update_bucket_join_perm k r gs hnd' hc'
      simp only [List.map_cons, if_neg hg, List.join_cons]
      rw [List.append_assoc]
      exact List.Perm.append_left g.2 ih

/-- One `addToGroups` step adds exactly the new row to the bucketed rows. -/
theorem addToGroups_join_perm (gs : List (String × List Row)) (k : String) (r : Row)
    (hnd : (gs.map Prod.fst).Nodup) :
    ((addToGroups gs k r).map Prod.snd).join.Perm ((gs.map Prod.snd).join ++ [r]) := by
  unfold addToGroups
  by_cases hc : gs.any (fun g => g.1 == k) = true
  · rw [if_pos hc]
    exact update_bucket_join_perm k r gs hnd hc
  · rw [if_neg hc]
    simp

/-- The grouping fold keeps keys distinct and accounts for every row exactly
once. -/
theorem foldl_addToGroups_spec (key : Row → String) :
    ∀ (rows : List Row) (gs : List (String × List Row)), (gs.map Prod.fst).Nodup →
      (((rows.foldl (fun acc row => addToGroups acc (key row) row) gs).map Prod.fst).Nodup ∧
        ((rows.foldl (fun acc row => addToGroups acc (key row) row) gs).map
            Prod.snd).join.Perm ((gs.map Prod.snd).join ++ rows))
  | [], gs, h => ⟨h, by simp⟩
  | r :: rs, gs, h => by
    simp only [List.foldl_cons]
    have h1 := addToGroups_keys_nodup gs (key r) r h
    obtain ⟨hn, hp⟩ := foldl_addToGroups_spec key rs (addToGroups gs (key r) r) h1
    refine ⟨hn, hp.trans ?_⟩
    have h2 := (addToGroups_join_perm gs (key r) r h).append_right rs
    rwa [List.append_assoc, List.singleton_append] at h2

/-- **C2** For every dataset and every instrument-variable list, the
grouper's output partitions the dataset's rows: the group keys are pairwise
distinct (each row is filed under exactly one group, the one of its key), and
the concatenation of all groups' rows is a permutation of — i.e. accounts
exactly for — the dataset's rows. -/
theorem instruments_partition (data : PyDataFrame) (cat : VariableCategorization) :
    ((getInstruments data cat).map Prod.fst).Nodup ∧
    ((getInstruments data cat).map (fun g => g.2.rows)).join.Perm data.rows := by
  unfold getInstruments
  by_cases hc : cat.instrument_vars.isEmpty = true
  · rw [if_pos hc]
    exact ⟨List.nodup_singleton _, by simp⟩
  · rw [if_neg hc]
    obtain ⟨hn, hp⟩ :=
      foldl_addToGroups_spec (rowKey data cat.instrument_vars) data.rows [] (by simp)
    constructor
    · simpa [List.map_map, Function.comp, instrumentGroups] using hn
    · simpa [List.map_map, Function.comp, instrumentGroups, dfOfRows] using hp

/-- Dict assignment does not change existing keys; a new key is appended. -/
theorem dictInsert_map_fst (d : List (String × String)) (k v : String) :
    (dictInsert d k v).map Prod.fst =
      if d.any (fun p => p.1 == k) then d.map Prod.fst else d.map Prod.fst ++ [k] := by
  unfold dictInsert
  by_cases hc : d.any (fun p => p.1 == k) = true
  · rw [if_pos hc, if_pos hc, List.map_map]
    apply List.map_congr_left
    intro p _
    by_cases hp : (p.1 == k) = true
    · simp [Function.comp, hp, (beq_iff_eq.mp hp).symm]
    · simp [Function.comp, hp]
  · rw [if_neg hc, if_neg hc]
    simp

/-- Dict assignment preserves key distinctness. -/
theorem dictInsert_keys_nodup (d : List (String × String)) (k v : String)
    (h : (d.map Prod.fst).Nodup) : ((dictInsert d k v).map Prod.fst).Nodup := by
  rw [dictInsert_map_fst]
  by_cases hc : d.any (fun p => p.1 == k) = true
  · rwa [if_pos hc]
  · rw [if_neg hc]
    have hk : k ∉ d.map Prod.fst := by
      intro hmem
      rcases List.mem_map.mp hmem with ⟨p, hp, hpk⟩
      exact hc (List.any_eq_true.mpr ⟨p, hp, by rw [hpk]; exact beq_self_eq_true k⟩)
    rw [List.nodup_append]
    refine ⟨h, List.nodup_singleton k, ?_⟩
    intro x hx hx'
    rw [List.mem_singleton.mp hx'] at hx
    exact hk hx

/-- Key membership after a dict assignment. -/
theorem mem_dictInsert_map_fst (d : List (String × String)) (k v a : String) :
    a ∈ (dictInsert d k v).map Prod.fst ↔ a ∈ d.map Prod.fst ∨ a = k := by
  rw [dictInsert_map_fst]
  by_cases hc : d.any (fun p => p.1 == k) = true
  · rw [if_pos hc]
    constructor
    · exact Or.inl
    · rintro (h | rfl)
      · exact h
      · rcases List.any_eq_true.mp hc with ⟨p, hp, hpk⟩
        rw [← beq_iff_eq.mp hpk]
        exact List.mem_map_of_mem Prod.fst hp
  · rw [if_neg hc]
    simp

/-- A dict whose stored values are determined by their key keeps that
property under assignment of a conforming pair. -/
theorem dictInsert_values (d : List (String × String)) (k v : String)
    (F : String → String) (hv : v = F k) (h : ∀ p ∈ d, p.2 = F p.1) :
    ∀ p ∈ dictInsert d k v, p.2 = F p.1 := by
  intro p hp
  unfold dictInsert at hp
  by_cases hc : d.any (fun q => q.1 == k) = true
  · rw [if_pos hc] at hp
    rcases List.mem_map.mp hp with ⟨q, hq, hqe⟩
    by_cases hqk : (q.1 == k) = true
    · rw [if_pos hqk] at hqe
      rw [← hqe]
      exact hv
    · rw [if_neg hqk] at hqe
      rw [← hqe]
      exact h q hq
  · rw [if_neg hc] at hp
    rcases List.mem_append.mp hp with h1 | h2
    · exact h p h1
    · rw [List.mem_singleton.mp h2]
      exact hv

/-- Specification of the `instrument_values` fold from an arbitrary starting
dict: keys stay distinct, values are the stringified cells of their keys, and
the final key set is the start's keys plus the declared variables that are
dataset columns. -/
theorem buildIV_fold_spec (data : PyDataFrame) (row : Row) :
    ∀ (ivars : List String) (d : List (String × String)),
      (d.map Prod.fst).Nodup → (∀ p ∈ d, p.2 = pyStr (getCell row p.1)) →
      (((ivars.foldl
          (fun d var =>
            if var ∈ data.cols then dictInsert d var (pyStr (getCell row var)) else d)
          d).map Prod.fst).Nodup ∧
        (∀ p ∈ ivars.foldl
            (fun d var =>
              if var ∈ data.cols then dictInsert d var (pyStr (getCell row var)) else d)
            d, p.2 = pyStr (getCell row p.1)) ∧
        (∀ a, a ∈ (ivars.foldl
            (fun d var =>
              if var ∈ data.cols then dictInsert d var (pyStr (getCell row var)) else d)
            d).map Prod.fst ↔ a ∈ d.map Prod.fst ∨ (a ∈ ivars ∧ a ∈ data.cols)))
  | [], d, hnd, hval => ⟨hnd, hval, fun a => by simp⟩
  | var :: ivars, d, hnd, hval => by
    simp only [List.foldl_cons]
    by_cases hv : var ∈ data.cols
    · rw [if_pos hv]
      have hnd' := dictInsert_keys_nodup d var (pyStr (getCell row var)) hnd
      have hval' := dictInsert_values d var (pyStr (getCell row var))
        (fun s => pyStr (getCell row s)) rfl hval
      obtain ⟨h1, h2, h3⟩ := buildIV_fold_spec data row ivars
        (dictInsert d var (pyStr (getCell row var))) hnd' hval'
      refine ⟨h1, h2, fun a => ?_⟩
      rw [h3 a, mem_dictInsert_map_fst]
      constructor
      · rintro ((h | rfl) | ⟨hi, hc⟩)
        · exact Or.inl h
        · exact Or.inr ⟨List.mem_cons_self _ _, hv⟩
        · exact Or.inr ⟨List.mem_cons_of_mem _ hi, hc⟩
      · rintro (h | ⟨hi, hc⟩)
        · exact Or.inl (Or.inl h)
        · rcases List.mem_cons.mp hi with rfl | hi'
          · exact Or.inl (Or.inr rfl)
          · exact Or.inr ⟨hi', hc⟩
    · rw [if_neg hv]
      obtain ⟨h1, h2, h3⟩ := buildIV_fold_spec data row ivars d hnd hval
      refine ⟨h1, h2, fun a => ?_⟩
      rw [h3 a]
      constructor
      · rintro (h | ⟨hi, hc⟩)
        · exact Or.inl h
        · exact Or.inr ⟨List.mem_cons_of_mem _ hi, hc⟩
      · rintro (h | ⟨hi, hc⟩)
        · exact Or.inl h
        · rcases List.mem_cons.mp hi with rfl | hi'
          · exact absurd hc hv
          · exact Or.inr ⟨hi', hc⟩

/-- Pair membership in the per-row `instrument_values` dict. -/
theorem mem_buildInstrumentValues (data : PyDataFrame) (ivars : List String) (row : Row)
    (p : String × String) :
    p ∈ buildInstrumentValues data ivars row ↔
      (p.1 ∈ ivars ∧ p.1 ∈ data.cols ∧ p.2 = pyStr (getCell row p.1)) := by
  obtain ⟨hnd, hval, hkeys⟩ := buildIV_fold_spec data row ivars [] (by simp) (by simp)
  unfold buildInstrumentValues
  constructor
  · intro hp
    have hk := (hkeys p.1).mp (List.mem_map_of_mem Prod.fst hp)
    simp only [List.map_nil, List.not_mem_nil, false_or] at hk
    exact ⟨hk.1, hk.2, hval p hp⟩
  · rintro ⟨hi, hc, hv⟩
    have hk : p.1 ∈ (List.foldl
        (fun d var =>
          if var ∈ data.cols then dictInsert d var (pyStr (getCell row var)) else d)
        [] ivars).map Prod.fst := (hkeys p.1).mpr (Or.inr ⟨hi, hc⟩)
    rcases List.mem_map.mp hk with ⟨q, hq, hqe⟩
    have hq2 : q.2 = pyStr (getCell row q.1) := hval q hq
    have : q = p := by
      apply Prod.ext hqe
      rw [hq2, hqe, ← hv]
    rwa [← this]

/-- Nodup of the `instrument_values` pairs themselves. -/
theorem buildInstrumentValues_nodup (data : PyDataFrame) (ivars : List String) (row : Row) :
    (buildInstrumentValues data ivars row).Nodup := by
  obtain ⟨hnd, _, _⟩ := buildIV_fold_spec data row ivars [] (by simp) (by simp)
  exact List.Nodup.of_map Prod.fst hnd

/-- The pair comparator is transitive. -/
theorem pairLE_trans (a b c : String × String)
    (h1 : pairLE a b = true) (h2 : pairLE b c = true) : pairLE a c = true := by
  simp only [pairLE, Bool.or_eq_true, Bool.and_eq_true, decide_eq_true_eq, beq_iff_eq]
    at h1 h2 ⊢
  rcases h1 with h1 | ⟨h1e, h1v⟩
  · rcases h2 with h2 | ⟨h2e, h2v⟩
    · exact Or.inl (lt_trans h1 h2)
    · exact Or.inl (h2e ▸ h1)
  · rcases h2 with h2 | ⟨h2e, h2v⟩
    · exact Or.inl (h1e ▸ h2)
    · exact Or.inr ⟨h1e.trans h2e, le_trans h1v h2v⟩

/-- The pair comparator is total. -/
theorem pairLE_total (a b : String × String) : (pairLE a b || pairLE b a) = true := by
  simp only [pairLE, Bool.or_eq_true, Bool.and_eq_true, decide_eq_true_eq, beq_iff_eq]
  rcases lt_trichotomy a.1 b.1 with h | h | h
  · exact Or.inl (Or.inl h)
  · rcases le_total a.2 b.2 with hv | hv
    · exact Or.inl (Or.inr ⟨h, hv⟩)
    · exact Or.inr (Or.inr ⟨h.symm, hv⟩)
  · exact Or.inr (Or.inl h)

/-- The pair comparator is antisymmetric. -/
theorem pairLE_antisymm (a b : String × String)
    (h1 : pairLE a b = true) (h2 : pairLE b a = true) : a = b := by
  simp only [pairLE, Bool.or_eq_true, Bool.and_eq_true, decide_eq_true_eq, beq_iff_eq]
    at h1 h2
  rcases h1 with h1 | ⟨h1e, h1v⟩
  · rcases h2 with h2 | ⟨h2e, h2v⟩
    · exact absurd h2 (lt_asymm h1)
    · exact absurd h1 (h2e ▸ lt_irrefl b.1)
  · rcases h2 with h2 | ⟨h2e, h2v⟩
    · exact absurd h2 (h1e ▸ lt_irrefl a.1)
    · exact Prod.ext h1e (le_antisymm h1v h2v)

/-- `sortedItems` permutes its input. -/
theorem sortedItems_perm (d : List (String × String)) : (sortedItems d).Perm d :=
  List.mergeSort_perm d pairLE

/-- `sortedItems` output is sorted by the pair comparator. -/
theorem sortedItems_sorted (d : List (String × String)) :
    (sortedItems d).Pairwise (fun a b => pairLE a b = true) :=
  List.sorted_mergeSort pairLE_trans pairLE_total d

/-- Two pair dicts that are permutations of each other sort identically. -/
theorem sortedItems_eq_of_perm (d1 d2 : List (String × String)) (h : d1.Perm d2) :
    sortedItems d1 = sortedItems d2 := by
  haveI : IsAntisymm (String × String) (fun a b => pairLE a b = true) :=
    ⟨pairLE_antisymm⟩
  exact List.eq_of_perm_of_sorted
    ((sortedItems_perm d1).trans (h.trans (sortedItems_perm d2).symm))
    (sortedItems_sorted d1) (sortedItems_sorted d2)

/-- Permuting the declared instrument-variable list leaves every row's group
key unchanged. -/
theorem rowKey_perm_invariant (data : PyDataFrame) (row : Row) (v1 v2 : List String)
    (h : v1.Perm v2) : rowKey data v1 row = rowKey data v2 row := by
  unfold rowKey instrumentKey
  have hperm : (buildInstrumentValues data v1 row).Perm (buildInstrumentValues data v2 row) := by
    rw [List.perm_ext_iff_of_nodup (buildInstrumentValues_nodup data v1 row)
      (buildInstrumentValues_nodup data v2 row)]
    intro p
    rw [mem_buildInstrumentValues, mem_buildInstrumentValues]
    constructor
    · rintro ⟨hi, hrest⟩
      exact ⟨h.mem_iff.mp hi, hrest⟩
    · rintro ⟨hi, hrest⟩
      exact ⟨h.mem_iff.mpr hi, hrest⟩
  rw [sortedItems_eq_of_perm _ _ hperm]

/-- The grouping fold only depends on the key function pointwise. -/
theorem foldl_groups_congr (key1 key2 : Row → String)
    (hk : ∀ row, key1 row = key2 row) :
    ∀ (rows : List Row) (gs : List (String × List Row)),
      rows.foldl (fun acc row => addToGroups acc (key1 row) row) gs =
        rows.foldl (fun acc row => addToGroups acc (key2 row) row) gs
  | [], _ => rfl
  | r :: rs, gs => by
    simp only [List.foldl_cons, hk r]
    exact foldl_groups_congr key1 key2 hk rs _

/-- **C5** For every dataset and every pair of instrument-variable lists that
are permutations of each other, the grouper produces identical output —
identical group keys and identical row membership per key. -/
theorem getInstruments_perm_invariant (data : PyDataFrame)
    (cat1 cat2 : VariableCategorization)
    (h : cat1.instrument_vars.Perm cat2.instrument_vars) :
    getInstruments data cat1 = getInstruments data cat2 := by
  by_cases h1 : cat1.instrument_vars = []
  · have h2 : cat2.instrument_vars = [] := by
      rw [h1] at h
      exact h.symm.eq_nil
    unfold getInstruments
    rw [h1, h2]
  · have h2 : cat2.instrument_vars ≠ [] := fun hh => h1 (by rw [hh] at h; exact h.eq_nil)
    unfold getInstruments
    rw [if_neg (by simpa [List.isEmpty_iff] using h1),
      if_neg (by simpa [List.isEmpty_iff] using h2)]
    unfold instrumentGroups
    rw [foldl_groups_congr (rowKey data cat1.instrument_vars)
      (rowKey data cat2.instrument_vars)
      (fun row => rowKey_perm_invariant data row _ _ h) data.rows []]

/-- Witness for C5: permuting `["a", "b"]` into `["b", "a"]` leaves the
grouping of the sample frame unchanged. -/
theorem getInstruments_perm_invariant_witness :
    catAB.instrument_vars.Perm catBA.instrument_vars ∧
      getInstruments sampleDFAB catAB = getInstruments sampleDFAB catBA :=
  ⟨by decide, getInstruments_perm_invariant sampleDFAB catAB catBA (by decide)⟩

/-- When none of the declared instrument variables is a dataset column, the
per-row dict stays empty. -/
theorem buildInstrumentValues_nil (data : PyDataFrame) (ivars : List String) (row : Row)
    (h : ∀ v ∈ ivars, v ∉ data.cols) : buildInstrumentValues data ivars row = [] := by
  unfold buildInstrumentValues
  induction ivars with
  | nil => rfl
  | cons v vs ih =>
    simp only [List.foldl_cons, if_neg (h v (List.mem_cons_self v vs))]
    exact ih (fun u hu => h u (List.mem_cons_of_mem v hu))

/-- Folding rows under one constant key extends the single bucket in order. -/
theorem foldl_addToGroups_single (k : String) :
    ∀ (rows : List Row) (acc : List Row),
      rows.foldl (fun gs row => addToGroups gs k row) [(k, acc)] = [(k, acc ++ rows)]
  | [], acc => by simp
  | r :: rs, acc => by
    simp only [List.foldl_cons]
    have hstep : addToGroups [(k, acc)] k r = [(k, acc ++ [r])] := by
      unfold addToGroups
      rw [if_pos (by simp)]
      simp
    rw [hstep, foldl_addToGroups_single k rs (acc ++ [r]), List.append_assoc,
      List.singleton_append]

/-- **C10** For every non-empty dataset and every categorization whose
instrument-variable list is non-empty but has no name in common with the
dataset's columns, the grouper returns exactly one group containing every row
under the empty-string key — not the `default_instrument` sentinel, which is
reserved for the empty instrument-variable list. -/
theorem getInstruments_unmatched_vars (data : PyDataFrame) (cat : VariableCategorization)
    (hrows : data.rows ≠ []) (hvars : cat.instrument_vars ≠ [])
    (hcols : ∀ v ∈ cat.instrument_vars, v ∉ data.cols) :
    getInstruments data cat = [("", dfOfRows data.rows)] ∧
      ("" : String) ≠ SINGLE_INSTRUMENT_KEY := by
  refine ⟨?_, by decide⟩
  unfold getInstruments
  rw [if_neg (by simpa [List.isEmpty_iff] using hvars)]
  have hkey : ∀ row : Row, rowKey data cat.instrument_vars row = "" := by
    intro row
    unfold rowKey
    rw [buildInstrumentValues_nil data cat.instrument_vars row hcols]
    simp only [instrumentKey, sortedItems, List.mergeSort_nil, List.map_nil]
    rfl
  unfold instrumentGroups
  rw [foldl_groups_congr (rowKey data cat.instrument_vars) (fun _ => "")
    (fun row => hkey row) data.rows []]
  rcases hr : data.rows with _ | ⟨r, rs⟩
  · exact absurd hr hrows
  · simp only [List.foldl_cons]
    have h0 : addToGroups [] "" r = [("", [r])] := by
      unfold addToGroups
      simp
    rw [h0, foldl_addToGroups_single "" rs [r]]
    simp

/-- Witness for C10: grouping the sample frame by the absent column `"z"`
yields a single empty-string-keyed group holding both rows. -/
theorem getInstruments_unmatched_vars_witness :
    sampleDFAB.rows ≠ [] ∧ catZ.instrument_vars ≠ [] ∧
      (∀ v ∈ catZ.instrument_vars, v ∉ sampleDFAB.cols) ∧
      (getInstruments sampleDFAB catZ = [("", dfOfRows sampleDFAB.rows)] ∧
        ("" : String) ≠ SINGLE_INSTRUMENT_KEY) :=
  ⟨by decide, by decide, by decide,
    getInstruments_unmatched_vars sampleDFAB catZ (by decide) (by decide) (by decide)⟩

/-- **C6** For every dataset and every categorization without advanced
options (`None`), the advanced-constraint evaluator is vacuously valid with
every error list (and the warning list) empty, regardless of dataset
content. -/
theorem advanced_constraints_opt_in (data : PyDataFrame) (cat : VariableCategorization)
    (h : cat.advanced_options = none) :
    (validate_advanced_constraints data cat).is_valid = true ∧
      (validate_advanced_constraints data cat).errors = [] ∧
      (validate_advanced_constraints data cat).item_count_errors = [] ∧
      (validate_advanced_constraints data cat).key_variable_errors = [] ∧
      (validate_advanced_constraints data cat).warnings = [] := by
  unfold validate_advanced_constraints
  rw [h]
  exact ⟨rfl, rfl, rfl, rfl, rfl⟩

/-- Witness for C6 at a concrete frame and categorization. -/
theorem advanced_constraints_opt_in_witness :
    catZ.advanced_options = none ∧
      ((validate_advanced_constraints sampleDFAB catZ).is_valid = true ∧
        (validate_advanced_constraints sampleDFAB catZ).errors = [] ∧
        (validate_advanced_constraints sampleDFAB catZ).item_count_errors = [] ∧
        (validate_advanced_constraints sampleDFAB catZ).key_variable_errors = [] ∧
        (validate_advanced_constraints sampleDFAB catZ).warnings = []) :=
  ⟨rfl, advanced_constraints_opt_in sampleDFAB catZ rfl⟩

/-- Counterexample to C3 as stated: with zero declared item-id variables the
duplicate checker does *not* return a blocking severity-`error` issue — at
this concrete input it stays valid, its error list is empty, and it records a
single warning instead. -/
theorem validate_duplicates_no_ids_counterexample :
    (validate_duplicates sampleDFAB catZ).is_valid = true ∧
      (validate_duplicates sampleDFAB catZ).errors = [] ∧
      (validate_duplicates sampleDFAB catZ).warnings.length = 1 :=
  ⟨rfl, rfl, rfl⟩

/-- **C3 (amended)** For every dataset, if the categorization declares zero
item-id variables, the duplicate checker returns a result that stays valid
(`is_valid = true`) and carries a single *warning* (code `NO_ITEM_ID_VARS`),
no errors, and performs no per-row analysis — its statistics stay empty. -/
theorem validate_duplicates_no_ids (data : PyDataFrame) (cat : VariableCategorization)
    (h : cat.item_id_vars = []) :
    (validate_duplicates data cat).is_valid = true ∧
      (validate_duplicates data cat).errors = [] ∧
      (validate_duplicates data cat).warnings =
        [{ message := "No se han definido variables de identificador de ítem"
           warning_code := "NO_ITEM_ID_VARS"
           context := [] }] ∧
      (validate_duplicates data cat).statistics = none := by
  unfold validate_duplicates
  rw [h]
  exact ⟨rfl, rfl, rfl, rfl⟩

/-- Witness for the amended C3 at a concrete frame and categorization. -/
theorem validate_duplicates_no_ids_witness :
    catZ.item_id_vars = [] ∧
      ((validate_duplicates metaDF catZ).is_valid = true ∧
        (validate_duplicates metaDF catZ).errors = [] ∧
        (validate_duplicates metaDF catZ).warnings =
          [{ message := "No se han definido variables de identificador de ítem"
             warning_code := "NO_ITEM_ID_VARS"
             context := [] }] ∧
        (validate_duplicates metaDF catZ).statistics = none) :=
  ⟨rfl, validate_duplicates_no_ids metaDF catZ rfl⟩

/-- **C7** For every group frame and variable, the per-variable metadata
analysis reports the group's row count, a missing count equal to the number
of rows whose cell for that variable is null, and a missing percentage of
`missing / total * 100` rounded to one decimal (Python `round`). -/
theorem metadata_variable_analysis (df : PyDataFrame) (varName : String)
    (h : 0 < df.rows.length) :
    (analyze_variable_by_instrument df varName).total_observations = df.rows.length ∧
    (analyze_variable_by_instrument df varName).missing_count =
      (df.rows.filter (fun r => getCell r varName == Cell.null)).length ∧
    (analyze_variable_by_instrument df varName).missing_percentage =
      round1 (((df.rows.filter (fun r => getCell r varName == Cell.null)).length : Rat) /
        (df.rows.length : Rat) * 100) := by
  have hcnt : (colValues df varName).countP (fun c => c == Cell.null) =
      (df.rows.filter (fun r => getCell r varName == Cell.null)).length := by
    rw [colValues, List.countP_map, List.countP_eq_length_filter]
    rfl
  simp only [analyze_variable_by_instrument, if_pos h, hcnt]
  exact ⟨trivial, trivial, trivial⟩

/-- Witness for C7: 3 of 5 values non-null gives `missing_count = 2`,
`missing_percentage = 40.0`, i.e. completeness `100 - 40.0 = 60.0`. -/
theorem metadata_variable_analysis_witness :
    0 < metaDF.rows.length ∧
      ((analyze_variable_by_instrument metaDF "k").total_observations =
          metaDF.rows.length ∧
        (analyze_variable_by_instrument metaDF "k").missing_count =
          (metaDF.rows.filter (fun r => getCell r "k" == Cell.null)).length ∧
        (analyze_variable_by_instrument metaDF "k").missing_percentage =
          round1 (((metaDF.rows.filter (fun r => getCell r "k" == Cell.null)).length : Rat) /
            (metaDF.rows.length : Rat) * 100)) ∧
      (analyze_variable_by_instrument metaDF "k").missing_count = 2 ∧
      (analyze_variable_by_instrument metaDF "k").missing_percentage = 40 ∧
      100 - (analyze_variable_by_instrument metaDF "k").missing_percentage = 60 :=
  ⟨by decide, metadata_variable_analysis metaDF "k" (by decide),
    by with_unfolding_all decide, by with_unfolding_all decide,
    by with_unfolding_all decide⟩

/-- Specification of the first-appearance distinct fold. -/
theorem uniqueFA_fold_spec (l : List Cell) :
    ∀ acc : List Cell, acc.Nodup →
      ((l.foldl (fun acc v => if v ∈ acc then acc else acc ++ [v]) acc).Nodup ∧
        (∀ a, a ∈ l.foldl (fun acc v => if v ∈ acc then acc else acc ++ [v]) acc ↔
          a ∈ acc ∨ a ∈ l)) := by
  induction l with
  | nil =>
    intro acc h
    exact ⟨h, fun a => by simp⟩
  | cons v vs ih =>
    intro acc h
    simp only [List.foldl_cons]
    by_cases hv : v ∈ acc
    · rw [if_pos hv]
      obtain ⟨h1, h2⟩ := ih acc h
      refine ⟨h1, fun a => ?_⟩
      rw [h2 a]
      constructor
      · rintro (ha | ha)
        · exact Or.inl ha
        · exact Or.inr (List.mem_cons_of_mem v ha)
      · rintro (ha | ha)
        · exact Or.inl ha
        · rcases List.mem_cons.mp ha with rfl | ha'
          · exact Or.inl hv
          · exact Or.inr ha'
    · rw [if_neg hv]
      have hnd : (acc ++ [v]).Nodup := by
        rw [List.nodup_append]
        refine ⟨h, List.nodup_singleton v, ?_⟩
        intro x hx hx'
        rw [List.mem_singleton.mp hx'] at hx
        exact hv hx
      obtain ⟨h1, h2⟩ := ih (acc ++ [v]) hnd
      refine ⟨h1, fun a => ?_⟩
      rw [h2 a]
      constructor
      · rintro (ha | ha)
        · rcases List.mem_append.mp ha with ha' | ha'
          · exact Or.inl ha'
          · exact Or.inr (by rw [List.mem_singleton.mp ha']; exact List.mem_cons_self v vs)
        · exact Or.inr (List.mem_cons_of_mem v ha)
      · rintro (ha | ha)
        · exact Or.inl (List.mem_append.mpr (Or.inl ha))
        · rcases List.mem_cons.mp ha with rfl | ha'
          · exact Or.inl (List.mem_append.mpr (Or.inr (List.mem_singleton.mpr rfl)))
          · exact Or.inr ha'

/-- `uniqueFA` has no duplicates. -/
theorem uniqueFA_nodup (l : List Cell) : (uniqueFA l).Nodup :=
  (uniqueFA_fold_spec l [] List.nodup_nil).1

/-- `uniqueFA` has the same members as its input. -/
theorem mem_uniqueFA (l : List Cell) (a : Cell) : a ∈ uniqueFA l ↔ a ∈ l := by
  have h := ((uniqueFA_fold_spec l [] List.nodup_nil).2 a)
  simpa using h

/-- `value_counts` is a permutation of the per-distinct-value count list. -/
theorem value_counts_perm (l : List Cell) :
    (value_counts l).Perm ((uniqueFA l).map (fun v => (v, l.count v))) :=
  List.mergeSort_perm _ _

/-- Membership in `value_counts`: each distinct input value with its
multiplicity. -/
theorem mem_value_counts (l : List Cell) (p : Cell × Nat) :
    p ∈ value_counts l ↔ (p.1 ∈ l ∧ p.2 = l.count p.1) := by
  rw [(value_counts_perm l).mem_iff, List.mem_map]
  constructor
  · rintro ⟨v, hv, he⟩
    rw [← he]
    exact ⟨(mem_uniqueFA l v).mp hv, rfl⟩
  · rintro ⟨h1, h2⟩
    exact ⟨p.1, (mem_uniqueFA l p.1).mpr h1, (Prod.ext rfl h2.symm)⟩

/-- Each input value owns exactly one `value_counts` entry. -/
theorem value_counts_filter_self (l : List Cell) (v : Cell) (hv : v ∈ l) :
    ((value_counts l).filter (fun p => p.1 == v)).length = 1 := by
  have hperm := (value_counts_perm l).filter (fun p => p.1 == v)
  rw [hperm.length_eq, List.filter_map, List.length_map]
  have h2 : List.filter ((fun p : Cell × Nat => p.1 == v) ∘ fun w => (w, l.count w))
      (uniqueFA l) = (uniqueFA l).filter (fun w => w == v) := by
    apply List.filter_congr
    intro w _
    simp [Function.comp]
  rw [h2, ← List.countP_eq_length_filter]
  exact List.count_eq_one_of_mem (uniqueFA_nodup l) ((mem_uniqueFA l v).mpr hv)

/-- `duplicate_items` is emptied by `validate_duplicates` on every path. -/
theorem validate_duplicates_items_nil (data : PyDataFrame) (cat : VariableCategorization) :
    (validate_duplicates data cat).duplicate_items = [] := by
  unfold validate_duplicates
  by_cases h : cat.item_id_vars.isEmpty = true
  · rw [if_pos h]
  · rw [if_neg h]

/-- **C4 (amended)** For every group frame and item-id variable, each
non-null value occurring more than once within the group yields exactly one
duplicate entry (exactly one `value_counts` row for that value), and that
entry records only the stringified value, its occurrence count and
`times_repeated = count - 1` — no row indices: the live checker empties
`duplicate_items` on every input, and the legacy finder (see the
counterexample) reports group-relative reset positions, not global dataset
indices. -/
theorem duplicate_entry_per_value (df : PyDataFrame) (varName : String) (v : Cell)
    (hdup : 1 < (dropna (colValues df varName)).count v) :
    ((value_counts (dropna (colValues df varName))).filter (fun p => p.1 == v)).length = 1 ∧
    (⟨pyStr v, (dropna (colValues df varName)).count v,
      (dropna (colValues df varName)).count v - 1⟩ : RepeatedDetail) ∈
      (analyze_id_variable_by_instrument df varName).repeated_details ∧
    (∀ (data : PyDataFrame) (cat : VariableCategorization),
      (validate_duplicates data cat).duplicate_items = []) := by
  have hmem : v ∈ dropna (colValues df varName) :=
    List.count_pos_iff_mem.mp (lt_trans zero_lt_one hdup)
  refine ⟨value_counts_filter_self _ v hmem, ?_, validate_duplicates_items_nil⟩
  simp only [analyze_id_variable_by_instrument]
  refine List.mem_map.mpr ⟨(v, (dropna (colValues df varName)).count v), ?_, rfl⟩
  apply List.mem_filter.mpr
  exact ⟨(mem_value_counts _ _).mpr ⟨hmem, rfl⟩, by simpa using hdup⟩

/-- Witness for the amended C4 at the second group of `dupDF`. -/
theorem duplicate_entry_per_value_witness :
    1 < (dropna (colValues dupG2 "ID")).count (Cell.str "A") ∧
      (((value_counts (dropna (colValues dupG2 "ID"))).filter
          (fun p => p.1 == Cell.str "A")).length = 1 ∧
        (⟨pyStr (Cell.str "A"), (dropna (colValues dupG2 "ID")).count (Cell.str "A"),
          (dropna (colValues dupG2 "ID")).count (Cell.str "A") - 1⟩ : RepeatedDetail) ∈
          (analyze_id_variable_by_instrument dupG2 "ID").repeated_details ∧
        (∀ (data : PyDataFrame) (cat : VariableCategorization),
          (validate_duplicates data cat).duplicate_items = [])) :=
  ⟨by decide, duplicate_entry_per_value dupG2 "ID" (Cell.str "A") (by decide)⟩

/-- Counterexample to C4 as stated: on `dupDF` the live checker stores, for
the value `"A"` duplicated at global rows 2 and 3, only
`value`/`count`/`times_repeated` (no index list), empties `duplicate_items`,
and the legacy finder run on the rebuilt second group reports reset positions
`[0, 1]`, not the global indices `[2, 3]`. -/
theorem duplicate_row_indices_counterexample :
    getInstruments dupDF dupCat = [("G:g1", dupG1), ("G:g2", dupG2)] ∧
    (analyze_id_variable_by_instrument dupG2 "ID").repeated_details =
      [{ value := "A", count := 2, times_repeated := 1 }] ∧
    (validate_duplicates dupDF dupCat).duplicate_items = [] ∧
    (find_duplicates_in_instrument dupG2 [("G", "g2")] dupCat).map
      DuplicateItem.row_indices = [[0, 1]] ∧
    maskIndices dupDF "ID" (Cell.str "A") = [2, 3] ∧
    ([0, 1] : List Nat) ≠ [2, 3] := by
  with_unfolding_all decide

/-- **C8** For every key-variable constraint with a non-empty expected-value
set, actual and expected values are compared through `normalize_value` on
both sides: whenever the normalized distinct actual values coincide (as a
set) with the normalized expected values and the cardinality sub-check is
disabled or satisfied, the check raises no error at all and records a passed
entry; in particular the expected string `"4"` and the actual float `4.0`
both normalize to `"4"`. -/
theorem key_value_normalization (inst_data : PyDataFrame) (inst_key var_name : String)
    (c : KeyVariableConstraint)
    (hne : c.expected_values ≠ [])
    (hsets : ((uniqueFA (dropna (colValues inst_data var_name))).map
        normalize_value).toFinset =
      (c.expected_values.map (fun v => normalize_value (Cell.str v))).toFinset)
    (hcard : c.expected_key_count ≤ 0 ∨
      c.expected_key_count = ((uniqueFA (dropna (colValues inst_data var_name))).length : Int)) :
    (check_key_in_instrument inst_data inst_key var_name c).1 = [] ∧
      (check_key_in_instrument inst_data inst_key var_name c).2.isSome = true ∧
      normalize_value (Cell.float 4) = "4" ∧
      normalize_value (Cell.str "4") = "4" := by
  have hsv : (!c.expected_values.isEmpty) = true := by
    cases hv : c.expected_values
    · exact absurd hv hne
    · rfl
  have hACT : ((uniqueFA (dropna (colValues inst_data var_name))).map
        normalize_value).toFinset \
      (c.expected_values.map (fun v => normalize_value (Cell.str v))).toFinset = ∅ := by
    rw [hsets]
    exact Finset.sdiff_self _
  have hMISS : (c.expected_values.map (fun v => normalize_value (Cell.str v))).toFinset \
      ((uniqueFA (dropna (colValues inst_data var_name))).map
        normalize_value).toFinset = ∅ := by
    rw [hsets]
    exact Finset.sdiff_self _
  refine ⟨?_, ?_, by with_unfolding_all decide, by with_unfolding_all decide⟩ <;>
  · rcases hcard with hc | hc
    · have hsc : (decide (0 < c.expected_key_count)) = false :=
        decide_eq_false (not_lt.mpr hc)
      simp [check_key_in_instrument, hsv, hsc, hACT, hMISS]
    · by_cases hsc : (decide (0 < c.expected_key_count)) = true
      · simp [check_key_in_instrument, hsv, hsc, hACT, hMISS, hc]
      · have hsc' : (decide (0 < c.expected_key_count)) = false := by
          cases hde : decide (0 < c.expected_key_count)
          · rfl
          · exact absurd hde hsc
        simp [check_key_in_instrument, hsv, hsc', hACT, hMISS]

/-- Witness for C8: a column holding the float `4.0` twice against expected
values `["4"]` and expected cardinality 1 — no flags raised, a passed entry
recorded. -/
theorem key_value_normalization_witness :
    keyConstraint.expected_values ≠ [] ∧
      ((uniqueFA (dropna (colValues keyDF "K"))).map normalize_value).toFinset =
        (keyConstraint.expected_values.map (fun v => normalize_value (Cell.str v))).toFinset ∧
      keyConstraint.expected_key_count =
        ((uniqueFA (dropna (colValues keyDF "K"))).length : Int) ∧
      ((check_key_in_instrument keyDF "inst" "K" keyConstraint).1 = [] ∧
        (check_key_in_instrument keyDF "inst" "K" keyConstraint).2.isSome = true ∧
        normalize_value (Cell.float 4) = "4" ∧
        normalize_value (Cell.str "4") = "4") :=
  ⟨by decide, by with_unfolding_all decide, by with_unfolding_all decide,
    key_value_normalization keyDF "inst" "K" keyConstraint (by decide)
      (by with_unfolding_all decide) (Or.inr (by with_unfolding_all decide))⟩

/-- The numeric bucket's strings are exactly the parseable inputs, in
order. -/
theorem filterMap_pairs_map_snd (l : List String) :
    (l.filterMap (fun v => (pyFloat v).map (fun q => (q, v)))).map Prod.snd =
      l.filter (fun v => (pyFloat v).isSome) := by
  induction l with
  | nil => rfl
  | cons v vs ih =>
    cases hv : pyFloat v with
    | none => simp [List.filterMap_cons, hv, List.filter_cons, ih]
    | some q => simp [List.filterMap_cons, hv, List.filter_cons, ih]

/-- Every tagged pair carries the parse of its own string. -/
theorem mem_filterMap_pairs (l : List String) (p : Rat × String)
    (hp : p ∈ l.filterMap (fun v => (pyFloat v).map (fun q => (q, v)))) :
    pyFloat p.2 = some p.1 := by
  rcases List.mem_filterMap.mp hp with ⟨v, _, he⟩
  cases hq : pyFloat v with
  | none => rw [hq] at he; cases he
  | some q =>
    rw [hq] at he
    have : (q, v) = p := Option.some.inj he
    rw [← this]
    exact hq

/-- **C9** For every list of string values, the smart sort returns a
permutation of the input consisting of the float-parseable values first,
pairwise ordered by their parsed numeric value, followed by the remaining
values in lexical order. -/
theorem smart_sort_spec (l : List String) :
    (smart_sort_values l).Perm l ∧
    ∃ A B, smart_sort_values l = A ++ B ∧
      A.Perm (l.filter (fun v => (pyFloat v).isSome)) ∧
      B.Perm (l.filter (fun v => (pyFloat v).isNone)) ∧
      A.Pairwise (fun a b => ∀ qa qb, pyFloat a = some qa → pyFloat b = some qb → qa ≤ qb) ∧
      B.Pairwise (fun a b => a ≤ b) := by
  by_cases hemp : l.isEmpty = true
  · have hnil : l = [] := by
      cases l
      · rfl
      · cases hemp
    subst hnil
    exact ⟨List.Perm.refl _, [], [], rfl, List.Perm.refl _, List.Perm.refl _,
      List.Pairwise.nil, List.Pairwise.nil⟩
  · unfold smart_sort_values
    rw [if_neg hemp]
    have hA_perm : (((l.filterMap (fun v => (pyFloat v).map (fun q => (q, v)))).mergeSort
          (fun a b => decide (a.1 ≤ b.1))).map Prod.snd).Perm
        (l.filter (fun v => (pyFloat v).isSome)) := by
      rw [← filterMap_pairs_map_snd]
      exact (List.mergeSort_perm _ _).map Prod.snd
    have hB_perm : ((l.filter (fun v => (pyFloat v).isNone)).mergeSort
          (fun a b => decide (a ≤ b))).Perm (l.filter (fun v => (pyFloat v).isNone)) :=
      List.mergeSort_perm _ _
    have hA_sorted : (((l.filterMap (fun v => (pyFloat v).map (fun q => (q, v)))).mergeSort
          (fun a b => decide (a.1 ≤ b.1))).map Prod.snd).Pairwise
        (fun a b => ∀ qa qb, pyFloat a = some qa → pyFloat b = some qb → qa ≤ qb) := by
      rw [List.pairwise_map]
      have hs := @List.sorted_mergeSort (Rat × String)
        (fun a b => decide (a.1 ≤ b.1))
        (fun a b c h1 h2 => by
          simp only [decide_eq_true_eq] at h1 h2 ⊢
          exact le_trans h1 h2)
        (fun a b => by
          simp only [Bool.or_eq_true, decide_eq_true_eq]
          exact le_total a.1 b.1)
        (l.filterMap (fun v => (pyFloat v).map (fun q => (q, v))))
      apply List.Pairwise.imp_of_mem ?_ hs
      intro a b ha hb hle qa qb hqa hqb
      have hia := mem_filterMap_pairs l a
        (((List.mergeSort_perm _ _).mem_iff).mp ha)
      have hib := mem_filterMap_pairs l b
        (((List.mergeSort_perm _ _).mem_iff).mp hb)
      rw [hqa] at hia
      rw [hqb] at hib
      rw [Option.some.inj hia, Option.some.inj hib]
      exact decide_eq_true_eq.mp hle
    have hB_sorted : ((l.filter (fun v => (pyFloat v).isNone)).mergeSort
          (fun a b => decide (a ≤ b))).Pairwise (fun a b : String => a ≤ b) := by
      have hs := @List.sorted_mergeSort String
        (fun a b => decide (a ≤ b))
        (fun a b c h1 h2 => by
          simp only [decide_eq_true_eq] at h1 h2 ⊢
          exact le_trans h1 h2)
        (fun a b => by
          simp only [Bool.or_eq_true, decide_eq_true_eq]
          exact le_total a b)
        (l.filter (fun v => (pyFloat v).isNone))
      exact hs.imp (fun h => decide_eq_true_eq.mp h)
    refine ⟨?_, _, _, rfl, hA_perm, hB_perm, hA_sorted, hB_sorted⟩
    have hsplit : ((l.filter (fun v => (pyFloat v).isSome)) ++
        (l.filter (fun v => (pyFloat v).isNone))).Perm l := by
      have hcongr : l.filter (fun v => (pyFloat v).isNone) =
          l.filter (fun v => !(pyFloat v).isSome) := by
        apply List.filter_congr
        intro v _
        cases pyFloat v <;> rfl
      rw [hcongr]
      exact List.filter_append_perm _ l
    exact ((hA_perm.append hB_perm).trans hsplit)

-- Concrete smart-sort behavior: numbers numerically ascending first, then
-- strings lexically; numeric ties keep input order (stable sort).
example : smart_sort_values ["b", "10", "2", "a"] = ["2", "10", "a", "b"] := by
  with_unfolding_all decide
example : smart_sort_values ["x", "4.0", "4"] = ["4.0", "4", "x"] := by
  with_unfolding_all decide

end Validador
